import Mathlib

/-!
Verification of the correlation-analysis core of the time-series analysis tool
(`src/analysis/acf_pacf.py`, class `ACFPACFAnalyzer`).

Numeric values are idealised as elements of a linear ordered field (the Python
code computes with IEEE floats); the repository's own logic (`_find_cutoff`,
`suggest_arima_order`, the decision logic of `test_stationarity`) is translated
directly.  The statistical routines the repository delegates to
(`statsmodels.tsa.stattools.acf` / `pacf` / `adfuller` / `kpss`) are not part of
the repository; where a claim depends on them they are modelled from the spec
(definitions marked `Modelled from the spec:`) or abstracted as parameters.
-/

namespace ACFPACF

/-- A correlogram as produced by `calculate_acf` / `calculate_pacf`:
coefficient sequence, per-lag confidence band offsets relative to zero
(`lower_bound = confint[:, 0] - values`, `upper_bound = confint[:, 1] - values`),
and the significance level used. -/
structure Correlogram (α : Type*) where
  coefficients : List α
  lower_bound : List α
  upper_bound : List α
  alpha : α

/-- One entry of the `suggestions` list built by `suggest_arima_order`:
a dict `{'model': ..., 'order': (p, d, q), 'explanation': ...}`. -/
structure ModelSuggestion where
  model : String
  order : ℕ × ℕ × ℕ
  explanation : String
deriving DecidableEq

/-- The dict returned by `suggest_arima_order`. -/
structure AdvisorReport (α : Type*) where
  suggestions : List ModelSuggestion
  acf_cutoff : Option ℕ
  pacf_cutoff : Option ℕ
  threshold : α

variable {α : Type*} [LinearOrderedField α]

/-- The loop body of `_find_cutoff` (`acf_pacf.py` lines 200–207): iteration
variable `i`, remaining iterations `fuel`.  `values[i]` is `values.getD i 0`
(every access in the source is in bounds).  Python's `len(values) - 2` on a
list of length `< 2` is negative and then `i < len(values) - 2` is false;
truncated `ℕ` subtraction gives the same branch. -/
def find_cutoff_go (values : List α) (threshold : α) : ℕ → ℕ → Option ℕ
  | _, 0 => none
  | i, fuel + 1 =>
    if |values.getD i 0| < threshold then
      if i < values.length - 2 then
        if (List.range' i (min (i + 3) values.length - i)).all
            (fun j => decide (|values.getD j 0| < threshold)) then
          some (i + 1)
        else
          find_cutoff_go values threshold (i + 1) fuel
      else
        some (i + 1)
    else
      find_cutoff_go values threshold (i + 1) fuel

/-- `_find_cutoff(values, threshold, max_order)` (`acf_pacf.py` lines 188–208):
scan `i` over `range(min(len(values), max_order))`, return the 1-based lag
`i + 1` at the first confirmed cutoff, `None` when the scan finds none. -/
def find_cutoff (values : List α) (threshold : α) (max_order : ℕ) : Option ℕ :=
  find_cutoff_go values threshold 0 (min values.length max_order)

/-- Python truthiness of the inner guard `if pacf_cutoff and acf_cutoff` in the
mixed branch of `suggest_arima_order`: an `int` is truthy iff it is nonzero. -/
def both_truthy (p q : ℕ) : Bool :=
  decide (p ≠ 0) && decide (q ≠ 0)

/-- `suggest_arima_order(acf_result, pacf_result, max_order)`
(`acf_pacf.py` lines 99–186).  Drops lag 0 from each coefficient sequence,
derives the threshold `1.96 / sqrt(n)` from the lag count `n`, scans both
sequences for cutoffs, applies the four-way decision table (the `if`/`elif`
chain over `is not None` tests is exactly a match on the option pair), and
falls back to three fixed defaults when no suggestion was produced. -/
noncomputable def suggest_arima_order (acf_result pacf_result : Correlogram ℝ)
    (max_order : ℕ) : AdvisorReport ℝ :=
  let acf_values := acf_result.coefficients.drop 1
  let pacf_values := pacf_result.coefficients.drop 1
  let n := acf_values.length
  let threshold : ℝ := 1.96 / Real.sqrt n
  let acf_cutoff := find_cutoff acf_values threshold max_order
  let pacf_cutoff := find_cutoff pacf_values threshold max_order
  let suggestions : List ModelSuggestion :=
    match pacf_cutoff, acf_cutoff with
    | some p, none =>
      [⟨"AR", (p, 0, 0), s!"PACF在滞后{p}处截断，ACF拖尾，建议AR({p})模型"⟩]
    | none, some q =>
      [⟨"MA", (0, 0, q), s!"ACF在滞后{q}处截断，PACF拖尾，建议MA({q})模型"⟩]
    | none, none =>
      [⟨"ARMA", (1, 0, 1), "ACF和PACF都拖尾，建议ARMA(1,1)模型"⟩]
    | some p, some q =>
      if both_truthy p q then
        [⟨"ARMA", (p, 0, q), s!"建议ARMA({p},{q})模型"⟩]
      else
        []
  let suggestions :=
    if suggestions.isEmpty then
      [⟨"AR", (1, 0, 0), "默认建议: AR(1)模型"⟩,
       ⟨"MA", (0, 0, 1), "默认建议: MA(1)模型"⟩,
       ⟨"ARMA", (1, 0, 1), "默认建议: ARMA(1,1)模型"⟩]
    else suggestions
  { suggestions := suggestions
    acf_cutoff := acf_cutoff
    pacf_cutoff := pacf_cutoff
    threshold := threshold }

/-- The cutoff-confirmation rule exactly as the claim states it: position `i`
hits iff `|values[i]| < threshold` and either `i` is within the last two
positions (`len - 2 ≤ i`), or the two following coefficients are also below
threshold. -/
def cutoff_spec_hit (values : List α) (threshold : α) (i : ℕ) : Bool :=
  decide (|values.getD i 0| < threshold) &&
    (decide (values.length - 2 ≤ i) ||
      (decide (|values.getD (i + 1) 0| < threshold) &&
        decide (|values.getD (i + 2) 0| < threshold)))

/-- The claim's description of `_find_cutoff`: first position of the scan
window `0 .. min(len, max_order) - 1` satisfying the confirmation rule, mapped
to a 1-based lag. -/
def find_cutoff_spec (values : List α) (threshold : α) (max_order : ℕ) :
    Option ℕ :=
  ((List.range (min values.length max_order)).find?
    (cutoff_spec_hit values threshold)).map (· + 1)

/-- The statement that the mixed ("both cut off") branch of
`suggest_arima_order` always appends its ARMA suggestion: whenever both cutoff
scans return a lag, the suggestion list is exactly the ARMA singleton and the
fallback defaults are never reached. -/
def mixed_branch_appends : Prop :=
  ∀ (acf_result pacf_result : Correlogram ℝ) (max_order p q : ℕ),
    find_cutoff (pacf_result.coefficients.drop 1)
      (1.96 / Real.sqrt ((acf_result.coefficients.drop 1).length : ℝ))
      max_order = some p →
    find_cutoff (acf_result.coefficients.drop 1)
      (1.96 / Real.sqrt ((acf_result.coefficients.drop 1).length : ℝ))
      max_order = some q →
    (suggest_arima_order acf_result pacf_result max_order).suggestions =
      [⟨"ARMA", (p, 0, q), s!"建议ARMA({p},{q})模型"⟩]

/-- Raw outcome of one of the external hypothesis tests (`adfuller` / `kpss`
from statsmodels): the tuple positions the source reads — test statistic,
p-value and the critical-value table. -/
structure ExtTestResult (α : Type*) where
  statistic : α
  p_value : α
  critical_values : List (String × α)

/-- One verdict dict built by `test_stationarity`
(`acf_pacf.py` lines 222–246): either the populated result dict or the
`{'error': str(e)}` dict written by the `except` branch. -/
inductive StationarityVerdict (α : Type*) where
  | result (statistic : α) (p_value : α)
      (critical_values : List (String × α))
      (is_stationary : Bool) (interpretation : String)
  | failure (error : String)

/-- The `is_stationary` entry of a verdict dict, `none` on the error dict. -/
def StationarityVerdict.stationaryFlag? : StationarityVerdict α → Option Bool
  | .result _ _ _ b _ => some b
  | .failure _ => none

/-- `test_stationarity(data)` (`acf_pacf.py` lines 210–248).  The external
`adfuller` / `kpss` calls are not repository code: each is abstracted as an
`Except` input, `Except.error` standing for the exception its `try` block
catches.  The ADF verdict declares stationary when `p_value < 0.05`; the KPSS
verdict declares stationary when `p_value > 0.05`. -/
def test_stationarity (adf_result kpss_result : Except String (ExtTestResult α)) :
    StationarityVerdict α × StationarityVerdict α :=
  (match adf_result with
    | .ok r =>
      .result r.statistic r.p_value r.critical_values
        (decide (r.p_value < 0.05))
        (if r.p_value < 0.05 then "平稳" else "非平稳")
    | .error e => .failure e,
   match kpss_result with
    | .ok r =>
      .result r.statistic r.p_value r.critical_values
        (decide (r.p_value > 0.05))
        (if r.p_value > 0.05 then "平稳" else "非平稳")
    | .error e => .failure e)

/-- The error kinds of the spec's error-handling design (§7). -/
inductive AnalysisError where
  | invalidParameter (msg : String)
  | invalidInput (msg : String)
  | computationError (msg : String)

/-- Modelled from the spec: the sample mean of a series, used by the
normalized autocovariance.  (`calculate_acf` delegates the ACF computation to
`statsmodels.tsa.stattools.acf`, which is not repository code.) -/
noncomputable def series_mean (series : List ℝ) : ℝ :=
  series.sum / series.length

/-- Modelled from the spec: lag-`k` autocovariance with the full-sample
(biased) denominator convention — `statsmodels.tsa.stattools.acf` is not
repository code.  The ACF coefficient at lag `k` is
`autocovariance series k / autocovariance series 0`. -/
noncomputable def autocovariance (series : List ℝ) (k : ℕ) : ℝ :=
  (((List.range (series.length - k)).map fun t =>
      (series.getD t 0 - series_mean series) *
        (series.getD (t + k) 0 - series_mean series)).sum) / series.length

/-- Modelled from the spec: `compute_acf(series, max_lag, alpha)` of the
CorrelogramEngine — the underlying `statsmodels.tsa.stattools.acf` is not
repository code.  Validates `1 <= max_lag < len(series)` (`InvalidParameter`),
fails with `ComputationError` on an exactly-zero-variance series, and builds
the correlogram with the constant-width confidence band
`± z(alpha/2) / sqrt(n)`; the normal quantile `z` is supplied as a
parameter. -/
noncomputable def compute_acf (series : List ℝ) (max_lag : ℕ) (alpha : ℝ)
    (z : ℝ → ℝ) : Except AnalysisError (Correlogram ℝ) :=
  if ¬ (1 ≤ max_lag ∧ max_lag < series.length) then
    Except.error
      (.invalidParameter "max_lag must satisfy 1 <= max_lag < len(series)")
  else if autocovariance series 0 = 0 then
    Except.error (.computationError "zero-variance series")
  else
    Except.ok
      { coefficients := (List.range (max_lag + 1)).map fun k =>
          autocovariance series k / autocovariance series 0
        lower_bound := List.replicate (max_lag + 1)
          (-(z (alpha / 2) / Real.sqrt series.length))
        upper_bound := List.replicate (max_lag + 1)
          (z (alpha / 2) / Real.sqrt series.length)
        alpha := alpha }

/-- Modelled from the spec: one step of the Durbin–Levinson recursion on the
autocorrelation function `r`, turning the order-`k` coefficient vector
`φ_(k,1..k)` into the order-`k+1` vector; `none` when the recursion is
singular (zero denominator). -/
noncomputable def levinson_next (r : ℕ → ℝ) (phi : List ℝ) : Option (List ℝ) :=
  let k := phi.length
  let num :=
    r (k + 1) - ((List.range k).map fun j => phi.getD j 0 * r (k - j)).sum
  let den :=
    1 - ((List.range k).map fun j => phi.getD j 0 * r (j + 1)).sum
  if den = 0 then none
  else
    some ((List.zipWith (fun a b => a - (num / den) * b) phi phi.reverse)
      ++ [num / den])

/-- Modelled from the spec: the order-`k` Durbin–Levinson coefficient vector
obtained by iterating `levinson_next` from the empty order-0 vector. -/
noncomputable def levinson_phi (r : ℕ → ℝ) : ℕ → Option (List ℝ)
  | 0 => some []
  | k + 1 => (levinson_phi r k).bind (levinson_next r)

/-- Modelled from the spec: the PACF values at lags `1..max_lag` — the PACF
coefficient at lag `k` is the last coefficient `φ_(k,k)` of the order-`k`
Durbin–Levinson vector. -/
noncomputable def pacf_list (r : ℕ → ℝ) (max_lag : ℕ) : Option (List ℝ) :=
  (List.range max_lag).mapM fun k =>
    (levinson_phi r (k + 1)).bind List.getLast?

/-- Modelled from the spec: `compute_pacf(series, max_lag, alpha)` of the
CorrelogramEngine — the underlying `statsmodels.tsa.stattools.pacf` is not
repository code.  Same validation and confidence-band convention as
`compute_acf`; lag 0 carries the placeholder coefficient `1`, and a singular
Durbin–Levinson recursion is a `ComputationError`. -/
noncomputable def compute_pacf (series : List ℝ) (max_lag : ℕ) (alpha : ℝ)
    (z : ℝ → ℝ) : Except AnalysisError (Correlogram ℝ) :=
  if ¬ (1 ≤ max_lag ∧ max_lag < series.length) then
    Except.error
      (.invalidParameter "max_lag must satisfy 1 <= max_lag < len(series)")
  else if autocovariance series 0 = 0 then
    Except.error (.computationError "zero-variance series")
  else
    match pacf_list
        (fun k => autocovariance series k / autocovariance series 0)
        max_lag with
    | none => Except.error (.computationError "singular recursion")
    | some vals =>
      Except.ok
        { coefficients := 1 :: vals
          lower_bound := List.replicate (max_lag + 1)
            (-(z (alpha / 2) / Real.sqrt series.length))
          upper_bound := List.replicate (max_lag + 1)
            (z (alpha / 2) / Real.sqrt series.length)
          alpha := alpha }

lemma cutoff_spec_hit_iff (values : List α) (threshold : α) (i : ℕ) :
    cutoff_spec_hit values threshold i = true ↔
      |values.getD i 0| < threshold ∧
        (values.length - 2 ≤ i ∨
          (|values.getD (i + 1) 0| < threshold ∧
            |values.getD (i + 2) 0| < threshold)) := by
  simp only [cutoff_spec_hit, Bool.and_eq_true, Bool.or_eq_true,
    decide_eq_true_eq]

lemma find_cutoff_go_eq_find? (values : List α) (threshold : α) :
    ∀ (fuel i : ℕ),
      find_cutoff_go values threshold i fuel =
        ((List.range' i fuel).find? (cutoff_spec_hit values threshold)).map
          (· + 1) := by
  intro fuel
  induction fuel with
  | zero => intro i; simp [find_cutoff_go]
  | succ n ih =>
    intro i
    rw [find_cutoff_go, List.range'_succ]
    by_cases h1 : |values.getD i 0| < threshold
    · by_cases h2 : i < values.length - 2
      · have hm : min (i + 3) values.length - i = 3 := by omega
        have hw : List.range' i 3 = [i, i + 1, i + 2] := by
          simp [List.range'_succ, List.range']
        by_cases h3 : |values.getD (i + 1) 0| < threshold ∧
            |values.getD (i + 2) 0| < threshold
        · have hall : ((List.range' i (min (i + 3) values.length - i)).all
              (fun j => decide (|values.getD j 0| < threshold))) = true := by
            rw [hm, hw]
            simp only [List.all_cons, List.all_nil, Bool.and_eq_true,
              decide_eq_true_eq, Bool.and_true]
            exact ⟨h1, h3.1, h3.2⟩
          have hpos : cutoff_spec_hit values threshold i = true := by
            rw [cutoff_spec_hit_iff]
            exact ⟨h1, Or.inr h3⟩
          rw [if_pos h1, if_pos h2, if_pos hall,
            List.find?_cons_of_pos _ hpos]
          rfl
        · have hall : ¬ ((List.range' i (min (i + 3) values.length - i)).all
              (fun j => decide (|values.getD j 0| < threshold))) = true := by
            rw [hm, hw]
            simp only [List.all_cons, List.all_nil, Bool.and_eq_true,
              decide_eq_true_eq, Bool.and_true]
            tauto
          have hneg : ¬ cutoff_spec_hit values threshold i = true := by
            rw [cutoff_spec_hit_iff]
            rintro ⟨-, hc | hd⟩
            · omega
            · exact h3 hd
          rw [if_pos h1, if_pos h2, if_neg hall,
            List.find?_cons_of_neg _ hneg, ih]
      · have hpos : cutoff_spec_hit values threshold i = true := by
          rw [cutoff_spec_hit_iff]
          exact ⟨h1, Or.inl (by omega)⟩
        rw [if_pos h1, if_neg h2, List.find?_cons_of_pos _ hpos]
        rfl
    · have hneg : ¬ cutoff_spec_hit values threshold i = true := by
        rw [cutoff_spec_hit_iff]
        rintro ⟨ha, -⟩
        exact h1 ha
      rw [if_neg h1, List.find?_cons_of_neg _ hneg, ih]

lemma find_cutoff_eq_find? (values : List α) (threshold : α) (max_order : ℕ) :
    find_cutoff values threshold max_order =
      ((List.range (min values.length max_order)).find?
        (cutoff_spec_hit values threshold)).map (· + 1) := by
  rw [find_cutoff, find_cutoff_go_eq_find?, List.range_eq_range']

lemma find_cutoff_some_bounds {values : List α} {threshold : α}
    {max_order k : ℕ} (h : find_cutoff values threshold max_order = some k) :
    1 ≤ k ∧ k ≤ min values.length max_order := by
  rw [find_cutoff_eq_find?] at h
  rcases Option.map_eq_some'.mp h with ⟨i, hi, hk⟩
  have := List.mem_range.mp (List.mem_of_find?_eq_some hi)
  omega

/-- C2: `_find_cutoff` returns exactly the 1-based lag `i + 1` of the first
scanned position `i < min (len values) max_order` whose coefficient is below
threshold in absolute value and is confirmed — by the 3-point window when
`i < len - 2`, by the single point when `i` lies within the last two
positions — and `none` when no scanned position qualifies. -/
theorem c2_find_cutoff_characterization (values : List α) (threshold : α)
    (max_order : ℕ) :
    find_cutoff values threshold max_order =
      find_cutoff_spec values threshold max_order := by
  rw [find_cutoff_spec, find_cutoff_eq_find?]

/-- C1: the first suggestion of `suggest_arima_order` follows the four-way
decision table over the pair of cutoffs returned by `_find_cutoff`:
PACF cuts off alone → AR `(p, 0, 0)`; ACF cuts off alone → MA `(0, 0, q)`;
neither → ARMA `(1, 0, 1)`; both → ARMA `(p, 0, q)`; first matching rule
wins. -/
theorem c1_first_suggestion_decision_table
    (acf_result pacf_result : Correlogram ℝ) (max_order : ℕ) :
    ((suggest_arima_order acf_result pacf_result max_order).suggestions.head?).map
        (fun s => (s.model, s.order)) =
      some (match
          find_cutoff (pacf_result.coefficients.drop 1)
            (1.96 / Real.sqrt ((acf_result.coefficients.drop 1).length : ℝ))
            max_order,
          find_cutoff (acf_result.coefficients.drop 1)
            (1.96 / Real.sqrt ((acf_result.coefficients.drop 1).length : ℝ))
            max_order with
        | some p, none => ("AR", (p, 0, 0))
        | none, some q => ("MA", (0, 0, q))
        | none, none => ("ARMA", (1, 0, 1))
        | some p, some q => ("ARMA", (p, 0, q))) := by
  cases hp : find_cutoff (pacf_result.coefficients.drop 1)
      (1.96 / Real.sqrt ((acf_result.coefficients.drop 1).length : ℝ))
      max_order with
  | none =>
    cases ha : find_cutoff (acf_result.coefficients.drop 1)
        (1.96 / Real.sqrt ((acf_result.coefficients.drop 1).length : ℝ))
        max_order with
    | none => simp only [suggest_arima_order]; rw [hp, ha]; simp
    | some q => simp only [suggest_arima_order]; rw [hp, ha]; simp
  | some p =>
    cases ha : find_cutoff (acf_result.coefficients.drop 1)
        (1.96 / Real.sqrt ((acf_result.coefficients.drop 1).length : ℝ))
        max_order with
    | none => simp only [suggest_arima_order]; rw [hp, ha]; simp
    | some q =>
      have hp1 := (find_cutoff_some_bounds hp).1
      have hq1 := (find_cutoff_some_bounds ha).1
      simp only [suggest_arima_order]
      rw [hp, ha]
      simp [both_truthy, show p ≠ 0 by omega, show q ≠ 0 by omega]

/-- C3: the advisor's significance threshold is `1.96 / sqrt n` with `n` the
lag count (coefficients after dropping lag 0), it is the threshold used for
both cutoff scans as exposed by the report's `acf_cutoff` / `pacf_cutoff`
fields, it is returned in the report's `threshold` field, and the whole report
is independent of the `alpha` values carried by the two correlograms. -/
theorem c3_threshold_formula
    (acf_result pacf_result : Correlogram ℝ) (max_order : ℕ) (a1 a2 : ℝ) :
    (suggest_arima_order acf_result pacf_result max_order).threshold =
        1.96 / Real.sqrt ((acf_result.coefficients.drop 1).length : ℝ) ∧
    (suggest_arima_order acf_result pacf_result max_order).acf_cutoff =
        find_cutoff (acf_result.coefficients.drop 1)
          ((suggest_arima_order acf_result pacf_result max_order).threshold)
          max_order ∧
    (suggest_arima_order acf_result pacf_result max_order).pacf_cutoff =
        find_cutoff (pacf_result.coefficients.drop 1)
          ((suggest_arima_order acf_result pacf_result max_order).threshold)
          max_order ∧
    suggest_arima_order
        ⟨acf_result.coefficients, acf_result.lower_bound,
          acf_result.upper_bound, a1⟩
        ⟨pacf_result.coefficients, pacf_result.lower_bound,
          pacf_result.upper_bound, a2⟩ max_order =
      suggest_arima_order acf_result pacf_result max_order :=
  ⟨rfl, rfl, rfl, rfl⟩

/-- C4: `suggest_arima_order` never returns an empty suggestion list — every
branch of the decision table appends a suggestion or the three fixed defaults
are appended. -/
theorem c4_suggestions_nonempty
    (acf_result pacf_result : Correlogram ℝ) (max_order : ℕ) :
    (suggest_arima_order acf_result pacf_result max_order).suggestions ≠ [] := by
  cases hp : find_cutoff (pacf_result.coefficients.drop 1)
      (1.96 / Real.sqrt ((acf_result.coefficients.drop 1).length : ℝ))
      max_order with
  | none =>
    cases ha : find_cutoff (acf_result.coefficients.drop 1)
        (1.96 / Real.sqrt ((acf_result.coefficients.drop 1).length : ℝ))
        max_order with
    | none => simp only [suggest_arima_order]; rw [hp, ha]; simp
    | some q => simp only [suggest_arima_order]; rw [hp, ha]; simp
  | some p =>
    cases ha : find_cutoff (acf_result.coefficients.drop 1)
        (1.96 / Real.sqrt ((acf_result.coefficients.drop 1).length : ℝ))
        max_order with
    | none => simp only [suggest_arima_order]; rw [hp, ha]; simp
    | some q =>
      cases htq : both_truthy p q <;>
        (simp only [suggest_arima_order]; rw [hp, ha]; simp [htq])

/-- C5: every lag returned by `_find_cutoff` is at least `1` and at most
`min (len values) max_order`; in particular it is never `0`, so the Python
truthiness guard in the mixed branch of `suggest_arima_order` is equivalent to
a both-not-`None` test and the ARMA suggestion is always appended when both
cutoffs exist. -/
theorem c5_cutoff_lag_bounds (values : List α) (threshold : α)
    (max_order k : ℕ)
    (h : find_cutoff values threshold max_order = some k) :
    (1 ≤ k ∧ k ≤ min values.length max_order) ∧ mixed_branch_appends := by
  refine ⟨find_cutoff_some_bounds h, ?_⟩
  intro acf_result pacf_result mo p q hp ha
  have hp1 := (find_cutoff_some_bounds hp).1
  have hq1 := (find_cutoff_some_bounds ha).1
  simp only [suggest_arima_order]
  rw [hp, ha]
  simp [both_truthy, show p ≠ 0 by omega, show q ≠ 0 by omega]

/-- Witness for C5 at a concrete input: the scan over the one-element rational
sequence `[0]` with threshold `2` confirms the cutoff at lag `1`. -/
theorem c5_cutoff_lag_bounds_witness :
    find_cutoff [(0 : ℚ)] 2 5 = some 1 ∧
      ((1 ≤ 1 ∧ 1 ≤ min ([(0 : ℚ)] : List ℚ).length 5) ∧
        mixed_branch_appends) :=
  ⟨by decide, c5_cutoff_lag_bounds [(0 : ℚ)] 2 5 1 (by decide)⟩

/-- C8: the two stationarity tests use opposite polarity — the ADF verdict is
stationary exactly when its p-value is below `0.05`, and the KPSS verdict is
non-stationary exactly when its p-value is at most `0.05`. -/
theorem c8_opposite_polarity (adf_raw kpss_raw : ExtTestResult α)
    (a k : Except String (ExtTestResult α))
    (ha : a = Except.ok adf_raw) (hk : k = Except.ok kpss_raw) :
    ((test_stationarity a k).1.stationaryFlag? = some true ↔
        adf_raw.p_value < 0.05) ∧
      ((test_stationarity a k).2.stationaryFlag? = some false ↔
        kpss_raw.p_value ≤ 0.05) := by
  subst ha hk
  constructor
  · simp [test_stationarity, StationarityVerdict.stationaryFlag?]
  · simp [test_stationarity, StationarityVerdict.stationaryFlag?, not_lt]

/-- Witness for C8 at concrete rational test outcomes (both p-values `0`). -/
theorem c8_opposite_polarity_witness :
    ((Except.ok (⟨0, 0, []⟩ : ExtTestResult ℚ) :
        Except String (ExtTestResult ℚ)) = Except.ok ⟨0, 0, []⟩) ∧
      (((test_stationarity (Except.ok (⟨0, 0, []⟩ : ExtTestResult ℚ))
            (Except.ok ⟨0, 0, []⟩)).1.stationaryFlag? = some true ↔
          (⟨0, 0, []⟩ : ExtTestResult ℚ).p_value < 0.05) ∧
        ((test_stationarity (Except.ok (⟨0, 0, []⟩ : ExtTestResult ℚ))
            (Except.ok ⟨0, 0, []⟩)).2.stationaryFlag? = some false ↔
          (⟨0, 0, []⟩ : ExtTestResult ℚ).p_value ≤ 0.05)) :=
  ⟨rfl, c8_opposite_polarity ⟨0, 0, []⟩ ⟨0, 0, []⟩ _ _ rfl rfl⟩

/-- C9: `test_stationarity` always yields both verdicts: a failing external
test is captured as the error dict of that verdict alone, each verdict depends
only on its own test's outcome, and the function is total (no exception
escapes). -/
theorem c9_independent_error_capture
    (a k : Except String (ExtTestResult α)) (e : String) :
    (test_stationarity (Except.error e) k).1 =
        StationarityVerdict.failure e ∧
      (test_stationarity a (Except.error e)).2 =
        StationarityVerdict.failure e ∧
      (test_stationarity a k).2 = (test_stationarity (Except.error e) k).2 ∧
      (test_stationarity a k).1 = (test_stationarity a (Except.error e)).1 :=
  ⟨rfl, rfl, rfl, rfl⟩

lemma getD_replicate_of_lt {β : Type*} (b d : β) {n i : ℕ} (h : i < n) :
    (List.replicate n b).getD i d = b := by
  rw [List.getD_eq_getElem?_getD, List.getElem?_replicate, if_pos h,
    Option.getD_some]

lemma compute_acf_ok {series : List ℝ} {max_lag : ℕ} (alpha : ℝ) (z : ℝ → ℝ)
    (h1 : 1 ≤ max_lag) (h2 : max_lag < series.length)
    (h3 : autocovariance series 0 ≠ 0) :
    compute_acf series max_lag alpha z = Except.ok
      { coefficients := (List.range (max_lag + 1)).map fun k =>
          autocovariance series k / autocovariance series 0
        lower_bound := List.replicate (max_lag + 1)
          (-(z (alpha / 2) / Real.sqrt series.length))
        upper_bound := List.replicate (max_lag + 1)
          (z (alpha / 2) / Real.sqrt series.length)
        alpha := alpha } := by
  rw [compute_acf, if_neg (not_not_intro ⟨h1, h2⟩), if_neg h3]

/-- C6: on every series where both correlogram computations succeed, the
confidence band offsets of `compute_acf` and `compute_pacf` are identical at
every lag `1 ≤ k ≤ max_lag` and the band has positive width — the width
depends only on the series length and `alpha` (through the quantile `z`), not
on the lag. -/
theorem c6_constant_positive_bands (series : List ℝ) (max_lag : ℕ)
    (alpha : ℝ) (z : ℝ → ℝ) (h1 : 1 ≤ max_lag)
    (h2 : max_lag < series.length) (h3 : autocovariance series 0 ≠ 0)
    (hz : 0 < z (alpha / 2))
    (hp : (pacf_list
        (fun k => autocovariance series k / autocovariance series 0)
        max_lag).isSome) :
    ∃ ca cp, compute_acf series max_lag alpha z = Except.ok ca ∧
      compute_pacf series max_lag alpha z = Except.ok cp ∧
      (∀ i j, 1 ≤ i → i ≤ max_lag → 1 ≤ j → j ≤ max_lag →
        ca.lower_bound.getD i 0 = ca.lower_bound.getD j 0 ∧
        ca.upper_bound.getD i 0 = ca.upper_bound.getD j 0 ∧
        cp.lower_bound.getD i 0 = cp.lower_bound.getD j 0 ∧
        cp.upper_bound.getD i 0 = cp.upper_bound.getD j 0) ∧
      (∀ i, i ≤ max_lag →
        ca.lower_bound.getD i 0 < ca.upper_bound.getD i 0 ∧
        cp.lower_bound.getD i 0 < cp.upper_bound.getD i 0) := by
  obtain ⟨vals, hv⟩ := Option.isSome_iff_exists.mp hp
  have hw : 0 < z (alpha / 2) / Real.sqrt series.length := by
    apply div_pos hz
    rw [Real.sqrt_pos]
    have hlen : 0 < series.length := by omega
    exact_mod_cast hlen
  have hacf := compute_acf_ok alpha z h1 h2 h3
  have hpacf : compute_pacf series max_lag alpha z = Except.ok
      { coefficients := 1 :: vals
        lower_bound := List.replicate (max_lag + 1)
          (-(z (alpha / 2) / Real.sqrt series.length))
        upper_bound := List.replicate (max_lag + 1)
          (z (alpha / 2) / Real.sqrt series.length)
        alpha := alpha } := by
    rw [compute_pacf, if_neg (not_not_intro ⟨h1, h2⟩), if_neg h3, hv]
  refine ⟨_, _, hacf, hpacf, ?_, ?_⟩
  · intro i j hi1 hi2 hj1 hj2
    have hi : i < max_lag + 1 := by omega
    have hj : j < max_lag + 1 := by omega
    dsimp only
    refine ⟨?_, ?_, ?_, ?_⟩ <;>
      rw [getD_replicate_of_lt _ _ hi, getD_replicate_of_lt _ _ hj]
  · intro i hi2
    have hi : i < max_lag + 1 := by omega
    dsimp only
    constructor <;>
      · rw [getD_replicate_of_lt _ _ hi, getD_replicate_of_lt _ _ hi]
        linarith

/-- Witness for C6 on the concrete series `[0, 1]` with `max_lag = 1`,
`alpha = 0.05` and the standard quantile `1.96`. -/
theorem c6_constant_positive_bands_witness :
    (1 ≤ 1 ∧ 1 < ([(0 : ℝ), 1] : List ℝ).length ∧
      autocovariance [0, 1] 0 ≠ 0 ∧
      0 < (fun _ : ℝ => (1.96 : ℝ)) (0.05 / 2) ∧
      (pacf_list
        (fun k => autocovariance [0, 1] k / autocovariance [0, 1] 0)
        1).isSome) ∧
    (∃ ca cp, compute_acf [0, 1] 1 0.05 (fun _ => 1.96) = Except.ok ca ∧
      compute_pacf [0, 1] 1 0.05 (fun _ => 1.96) = Except.ok cp ∧
      (∀ i j, 1 ≤ i → i ≤ 1 → 1 ≤ j → j ≤ 1 →
        ca.lower_bound.getD i 0 = ca.lower_bound.getD j 0 ∧
        ca.upper_bound.getD i 0 = ca.upper_bound.getD j 0 ∧
        cp.lower_bound.getD i 0 = cp.lower_bound.getD j 0 ∧
        cp.upper_bound.getD i 0 = cp.upper_bound.getD j 0) ∧
      (∀ i, i ≤ 1 →
        ca.lower_bound.getD i 0 < ca.upper_bound.getD i 0 ∧
        cp.lower_bound.getD i 0 < cp.upper_bound.getD i 0)) :=
  ⟨⟨le_refl 1, by norm_num,
    by norm_num [autocovariance, series_mean, List.range_succ],
    by norm_num,
    by simp [pacf_list, List.range_succ, List.mapM.loop, levinson_phi,
      levinson_next]⟩,
   c6_constant_positive_bands [0, 1] 1 0.05 (fun _ => 1.96)
    (le_refl 1) (by norm_num)
    (by norm_num [autocovariance, series_mean, List.range_succ])
    (by norm_num)
    (by simp [pacf_list, List.range_succ, List.mapM.loop, levinson_phi,
      levinson_next])⟩

/-- C7: on a series with positive variance and a valid `max_lag`,
`compute_acf` succeeds with exactly `max_lag + 1` coefficients, the lag-0
coefficient equal to `1`, and confidence-bound lists of the same length. -/
theorem c7_acf_shape (series : List ℝ) (max_lag : ℕ) (alpha : ℝ)
    (z : ℝ → ℝ) (h1 : 1 ≤ max_lag) (h2 : max_lag < series.length)
    (h3 : 0 < autocovariance series 0) :
    ∃ c, compute_acf series max_lag alpha z = Except.ok c ∧
      c.coefficients.length = max_lag + 1 ∧
      c.coefficients.head? = some 1 ∧
      c.lower_bound.length = max_lag + 1 ∧
      c.upper_bound.length = max_lag + 1 := by
  refine ⟨_, compute_acf_ok alpha z h1 h2 (ne_of_gt h3), by simp, ?_,
    by simp, by simp⟩
  rw [List.range_succ_eq_map]
  simp [div_self (ne_of_gt h3)]

/-- Witness for C7 on the concrete series `[0, 1]` with `max_lag = 1`. -/
theorem c7_acf_shape_witness :
    (1 ≤ 1 ∧ 1 < ([(0 : ℝ), 1] : List ℝ).length ∧
      0 < autocovariance [0, 1] 0) ∧
    (∃ c, compute_acf [0, 1] 1 0.05 (fun _ => 1.96) = Except.ok c ∧
      c.coefficients.length = 1 + 1 ∧
      c.coefficients.head? = some 1 ∧
      c.lower_bound.length = 1 + 1 ∧
      c.upper_bound.length = 1 + 1) :=
  ⟨⟨le_refl 1, by norm_num,
    by norm_num [autocovariance, series_mean, List.range_succ]⟩,
   c7_acf_shape [0, 1] 1 0.05 (fun _ => 1.96) (le_refl 1) (by norm_num)
    (by norm_num [autocovariance, series_mean, List.range_succ])⟩

/-- C10: whenever `max_lag` violates `1 ≤ max_lag < len(series)`,
`compute_acf` fails with an `InvalidParameter` error, an error kind disjoint
from `ComputationError`, and produces no correlogram. -/
theorem c10_invalid_max_lag (series : List ℝ) (max_lag : ℕ) (alpha : ℝ)
    (z : ℝ → ℝ) (h : ¬ (1 ≤ max_lag ∧ max_lag < series.length)) :
    (∃ msg, compute_acf series max_lag alpha z =
        Except.error (AnalysisError.invalidParameter msg)) ∧
      (∀ m1 m2, AnalysisError.invalidParameter m1 ≠
        AnalysisError.computationError m2) ∧
      (∀ c, compute_acf series max_lag alpha z ≠ Except.ok c) := by
  refine ⟨⟨"max_lag must satisfy 1 <= max_lag < len(series)", ?_⟩, ?_, ?_⟩
  · rw [compute_acf, if_pos h]
  · intro m1 m2 hc
    exact AnalysisError.noConfusion hc
  · intro c hc
    rw [compute_acf, if_pos h] at hc
    exact Except.noConfusion hc

/-- Witness for C10 at the concrete invalid lag count `max_lag = 0`. -/
theorem c10_invalid_max_lag_witness :
    (¬ (1 ≤ 0 ∧ 0 < ([(0 : ℝ), 1] : List ℝ).length)) ∧
    ((∃ msg, compute_acf [0, 1] 0 0.05 (fun _ => 1.96) =
        Except.error (AnalysisError.invalidParameter msg)) ∧
      (∀ m1 m2, AnalysisError.invalidParameter m1 ≠
        AnalysisError.computationError m2) ∧
      (∀ c, compute_acf [0, 1] 0 0.05 (fun _ => 1.96) ≠ Except.ok c)) :=
  ⟨by simp,
   c10_invalid_max_lag [0, 1] 0 0.05 (fun _ => 1.96) (by simp)⟩

end ACFPACF
